import Mathlib

/-!
Verification development for the PPT_Creator repository (`logic.py`).

The slide-layout engine `create_ppt_file` and its helper `fetch_image` are
embedded shallowly below.  Conventions:

* Geometric positions and sizes are in thousandths of an inch
  (`Inches(5.625)` becomes `5625`); font sizes and spacings are in points.
* A JSON dictionary produced by `json.loads` is modelled by `SlideData`
  with `Option` fields (a missing key is `none`; `dict.get(k, d)` is
  `Option.getD`).  A raw input string is modelled as `Option SlideData`:
  `none` stands for a string on which `json.loads` raises
  `JSONDecodeError`.
* Network effects (the Pexels search of `generate_image`, the HTTP
  responses seen by `fetch_image`) and the external `add_picture` call of
  python-pptx are supplied through an `ImageEnv` oracle.  For
  `fetch_image`, `responses url k` is the outcome of the `requests.get`
  on attempt `k` (0-based): `none` is a transport exception, `some (s, b)`
  a reply with HTTP status `s` and body `b`.
* `python-pptx` text frames start with one implicit empty paragraph;
  `add_paragraph` appends after it, while `paragraphs[0]` overwrites it.
  The paragraph lists below reproduce this.
* Python `str.strip()` is modelled by `pyStrip` (drop ASCII whitespace
  from both ends), `len` on a string by `String.length` (both count
  Unicode code points, which agree on the inputs of interest).
-/

namespace PPT

/-- An RGB colour triple, as built by `RGBColor(r, g, b)`. -/
abbrev RGB := Nat × Nat × Nat

/-- Paragraph alignment values used by the source (`PP_ALIGN.CENTER/LEFT`). -/
inductive Align where
  | center
  | left
deriving DecidableEq, Repr

/-- One paragraph of a text frame, with the attributes the source sets. -/
structure Para where
  text : String
  size : Option Nat
  bold : Bool
  color : Option RGB
  align : Option Align
  spaceBefore : Option Nat
  spaceAfter : Option Nat
  level : Nat
deriving DecidableEq, Repr

/-- A paragraph as freshly created by python-pptx: the implicit first
paragraph of a new text frame, or the result of `add_paragraph()` before
any attribute is assigned. -/
def newPara : Para := ⟨"", none, false, none, none, none, none, 0⟩

/-- A shape added to a slide: `add_shape(MSO_SHAPE.RECTANGLE, ...)` with a
solid fill, `add_textbox`, or `add_picture` (with its border line). -/
inductive Shape where
  | rectangle (x y w h : Nat) (fill : RGB)
  | textbox (x y w h : Nat) (paras : List Para)
  | picture (x y w : Nat) (lineColor : RGB) (lineWidth : Nat)
deriving DecidableEq, Repr

/-- One slide: its shapes in insertion order, and an optional solid
background fill. -/
structure Slide where
  shapes : List Shape
  background : Option RGB
deriving DecidableEq, Repr

/-- The whole presentation (`prs`), with the widescreen dimensions set by
the source. -/
structure Deck where
  slideWidth : Nat
  slideHeight : Nat
  slides : List Slide
deriving DecidableEq, Repr

/-- One entry of the `slides` array of the parsed JSON. -/
structure SlideInfo where
  title : Option String
  content : Option (List String)
  image_description : Option String
deriving DecidableEq, Repr

/-- The `conclusion` object of the parsed JSON. -/
structure ConclusionData where
  title : Option String
  content : Option (List String)
deriving DecidableEq, Repr

/-- The parsed JSON dictionary handed to `create_ppt_file`. -/
structure SlideData where
  presentation_title : Option String
  table_of_contents : Option (List String)
  slides : Option (List SlideInfo)
  conclusion : Option ConclusionData
deriving DecidableEq, Repr

/-! ### Theme colour resolution (`hex_to_rgb` and its fallback) -/

/-- Value of one hexadecimal digit, as accepted by Python `int(s, 16)`. -/
def hexDigit (c : Char) : Option Nat :=
  if '0' ≤ c ∧ c ≤ '9' then some (c.toNat - '0'.toNat)
  else if 'a' ≤ c ∧ c ≤ 'f' then some (c.toNat - 'a'.toNat + 10)
  else if 'A' ≤ c ∧ c ≤ 'F' then some (c.toNat - 'A'.toNat + 10)
  else none

/-- Python `int(s, 16)` on a slice: `none` when the slice is empty or has a
non-hex character (then `int` raises and the caller falls back). -/
def parseHexNat (cs : List Char) : Option Nat :=
  match cs with
  | [] => none
  | _ => cs.foldlM (fun acc c => (hexDigit c).map (fun d => 16 * acc + d)) 0

/-- Python slice `s[i:i+2]` on a character list. -/
def pySlice2 (cs : List Char) (i : Nat) : List Char := (cs.drop i).take 2

/-- The source's `hex_to_rgb`: strip leading `#` characters, then parse the
pairs at offsets 0, 2, 4; `none` when any `int(..., 16)` raises. -/
def hex_to_rgb (hex_color : String) : Option RGB :=
  let cs := hex_color.toList.dropWhile (fun c => c = '#')
  match parseHexNat (pySlice2 cs 0), parseHexNat (pySlice2 cs 2), parseHexNat (pySlice2 cs 4) with
  | some r, some g, some b => some (r, g, b)
  | _, _, _ => none

/-- `NAVY_BLUE` after the `try/except`: the user colour, or the fixed
fallback `RGBColor(0, 51, 102)`. -/
def themeRGB (theme_color : String) : RGB := (hex_to_rgb theme_color).getD (0, 51, 102)

/-- The fixed secondary colour `DARK_GRAY = RGBColor(80, 80, 80)`. -/
def DARK_GRAY : RGB := (80, 80, 80)

/-! ### The image download loop (`fetch_image`) -/

/-- Observable outcome of one `fetch_image` call: the returned bytes (or
`none`), the number of `requests.get` attempts made, and the durations (in
seconds) of the `time.sleep` calls, in order. -/
structure FetchResult where
  result : Option String
  attempts : Nat
  sleeps : List Nat
deriving DecidableEq, Repr

/-- The `for attempt in range(retries)` loop of `fetch_image`: on a
status-200 reply return the body at once; on any other status or on a
transport exception, sleep `1 * (attempt + 1)` seconds and continue. -/
def fetchGo (responses : Nat → Option (Nat × String)) (attempt : Nat) : Nat → FetchResult
  | 0 => ⟨none, 0, []⟩
  | Nat.succ n =>
    match responses attempt with
    | some (status, body) =>
      if status = 200 then ⟨some body, 1, []⟩
      else
        let r := fetchGo responses (attempt + 1) n
        ⟨r.result, r.attempts + 1, (attempt + 1) :: r.sleeps⟩
    | none =>
      let r := fetchGo responses (attempt + 1) n
      ⟨r.result, r.attempts + 1, (attempt + 1) :: r.sleeps⟩

/-- The source's `fetch_image(url, retries=3, ...)`, with the HTTP traffic
for the url abstracted into `responses`. -/
def fetch_image (responses : Nat → Option (Nat × String)) (retries : Nat) : FetchResult :=
  fetchGo responses 0 retries

/-! ### The external image environment -/

/-- External effects seen while building content slides:
`search` is `generate_image` (the single Pexels query, returning an image
URL or `None`); `responses` gives the HTTP replies `fetch_image` sees for a
url; `placeOk i` tells whether the python-pptx `add_picture` call on slide
`i` succeeds (its failure is the exception caught by the source's
`except` around image placement). -/
structure ImageEnv where
  search : String → Option String
  responses : String → Nat → Option (Nat × String)
  placeOk : Nat → Bool

/-- The query actually used for a slide: `slide_info.get("image_description")`
under Python truthiness, so a missing key and an empty string both yield
`none`. -/
def requestedQuery (info : SlideInfo) : Option String :=
  match info.image_description with
  | some q => if q = "" then none else some q
  | none => none

/-- The url obtained for a slide: the search runs only when
`include_images` holds and the query is truthy. -/
def searchedUrl (env : ImageEnv) (include_images : Bool) (info : SlideInfo) : Option String :=
  (if include_images then requestedQuery info else none).bind env.search

/-- `img_data` for a slide: bytes only when the search produced a url and
the download loop succeeded. -/
def imageBytes (env : ImageEnv) (include_images : Bool) (info : SlideInfo) : Option String :=
  match searchedUrl env include_images info with
  | some url => (fetch_image (env.responses url) 3).result
  | none => none

/-! ### Sizing rules (the breakpoint tables of the source) -/

/-- Title-slide title font size: `>40 chars → 32`, `>25 → 38`, else `44`. -/
def titleFontSize (title_text : String) : Nat :=
  if title_text.length > 40 then 32 else if title_text.length > 25 then 38 else 44

/-- Table-of-contents font size by item count. -/
def tocFontSize (item_count : Nat) : Nat :=
  if item_count > 8 then 14 else if item_count > 5 then 16 else 20

/-- Table-of-contents paragraph spacing by item count. -/
def tocSpacing (item_count : Nat) : Nat :=
  if item_count > 8 then 8 else if item_count > 5 then 12 else 14

/-- Content-slide title font size by title length. -/
def contentTitleSize (slide_title : String) : Nat :=
  if slide_title.length > 50 then 24 else if slide_title.length > 35 then 26 else 28

/-- Content-slide body font size by summed bullet character count. -/
def contentFontSize (total_chars : Nat) : Nat :=
  if total_chars > 600 then 12 else if total_chars > 400 then 14 else 16

/-- Content-slide body paragraph spacing by summed bullet character count. -/
def contentSpacing (total_chars : Nat) : Nat :=
  if total_chars > 600 then 4 else if total_chars > 400 then 6 else 8

/-- Conclusion-slide body font size by summed bullet character count. -/
def concFontSize (total_chars : Nat) : Nat :=
  if total_chars > 500 then 14 else if total_chars > 300 then 16 else 20

/-- Conclusion-slide body paragraph spacing by summed character count. -/
def concSpacing (total_chars : Nat) : Nat :=
  if total_chars > 500 then 8 else if total_chars > 300 then 10 else 14

/-- Python `str.strip()`: remove whitespace from both ends of the
string. -/
def pyStrip (s : String) : String :=
  ⟨(((s.data.dropWhile Char.isWhitespace).reverse.dropWhile Char.isWhitespace).reverse : List Char)⟩

/-- The bullet cleanup `[b.strip() for b in ... if b.strip()]` followed by
the all-blank fallback `["(No content generated)"]`. -/
def cleanBullets (raw : List String) : List String :=
  let bs := (raw.map pyStrip).filter (fun b => b ≠ "")
  if bs = [] then ["(No content generated)"] else bs

/-- Summed character count of a content slide's cleaned bullets. -/
def contentTotalChars (info : SlideInfo) : Nat :=
  ((cleanBullets (info.content.getD [])).map String.length).sum

/-! ### Per-slide builders -/

/-- A rendered content-slide bullet paragraph. -/
def contentBulletPara (dark : RGB) (fs sp : Nat) (b : String) : Para :=
  { newPara with
    text := "• " ++ b, level := 0, size := some fs, color := some dark,
    spaceBefore := some sp, spaceAfter := some sp }

/-- A rendered table-of-contents item paragraph; only the single-column
branch assigns `PP_ALIGN.LEFT`. -/
def tocPara (dark : RGB) (item_count : Nat) (alignLeft : Bool) (item : String) : Para :=
  { newPara with
    text := "• " ++ item, size := some (tocFontSize item_count),
    spaceAfter := some (tocSpacing item_count), color := some dark,
    align := if alignLeft then some Align.left else none }

/-- A rendered conclusion bullet paragraph (note: no `space_before`, and the
points are used as-is, without the content-slide cleanup). -/
def concBulletPara (dark : RGB) (fs sp : Nat) (point : String) : Para :=
  { newPara with
    text := "• " ++ point, level := 0, size := some fs, color := some dark,
    spaceAfter := some sp }

/-- Slide 1: decorative bar, dynamically sized centred title, subtitle. -/
def buildTitleSlide (navy dark : RGB) (title_text : String) : Slide :=
  { shapes := [
      Shape.rectangle 0 0 10000 500 navy,
      Shape.textbox 1000 2000 8000 1500 [newPara,
        { newPara with
          text := title_text, bold := true, color := some navy,
          align := some Align.center, size := some (titleFontSize title_text) }],
      Shape.textbox 1000 3500 8000 1000 [newPara,
        { newPara with
          text := "Generated by AI Agent", size := some 20, color := some dark,
          align := some Align.center }]],
    background := none }

/-- Slide 2: the table of contents.  With more than 4 items the list is
split into two columns, the first taking `math.ceil(n / 2)` items (which is
`(n + 1) / 2` in natural-number arithmetic); otherwise a single centred
column. -/
def buildTocSlide (navy dark : RGB) (toc_items : List String) : Slide :=
  let n := toc_items.length
  let header := Shape.textbox 500 500 9000 1000 [newPara,
    { newPara with
      text := "Table of Contents", bold := true, size := some 32,
      color := some navy, align := some Align.center }]
  let sep := Shape.rectangle 4000 1500 2000 50 navy
  if n > 4 then
    let mid := (n + 1) / 2
    { shapes := [header, sep,
        Shape.textbox 1000 2000 4000 3000 (newPara :: (toc_items.take mid).map (tocPara dark n false)),
        Shape.textbox 5500 2000 4000 3000 (newPara :: (toc_items.drop mid).map (tocPara dark n false))],
      background := none }
  else
    { shapes := [header, sep,
        Shape.textbox 2000 2000 6000 3000 (newPara :: toc_items.map (tocPara dark n true))],
      background := none }

/-- What building one content slide produced: the slide itself, the Pexels
queries issued, the urls passed to `fetch_image`, and the temporary staging
files still on disk afterwards. -/
structure ContentOutcome where
  slide : Slide
  searched : List String
  downloaded : List String
  tempLeft : List String
deriving DecidableEq, Repr

/-- One content slide (loop body of `for i, slide_info in enumerate(...)`).
When image bytes were obtained they are staged to `temp_img_{i}.jpg`; a
successful `add_picture` is followed by `os.remove`, while a failing one
raises into the `except` block, which only logs — so the staging file is
removed exactly on the success path. -/
def buildContentSlide (env : ImageEnv) (include_images : Bool) (navy dark : RGB)
    (i : Nat) (info : SlideInfo) : ContentOutcome :=
  let slide_title := info.title.getD "Slide"
  let header := Shape.textbox 500 300 9000 800
    [{ newPara with
       text := slide_title, bold := true, color := some navy,
       size := some (contentTitleSize slide_title) }]
  let sep := Shape.rectangle 500 1100 9000 30 navy
  let img_data := imageBytes env include_images info
  let has_image := img_data.isSome
  let content_width := if has_image then 5000 else 9000
  let bullets := cleanBullets (info.content.getD [])
  let total := (bullets.map String.length).sum
  let fs := contentFontSize total
  let sp := contentSpacing total
  let body := Shape.textbox 500 1400 content_width 3900
    (newPara :: bullets.map (contentBulletPara dark fs sp))
  let picShapes := if has_image && env.placeOk i then [Shape.picture 6000 2000 3500 navy 2] else []
  let tempLeft := if has_image && !(env.placeOk i) then ["temp_img_" ++ toString i ++ ".jpg"] else []
  { slide := { shapes := [header, sep, body] ++ picShapes, background := none },
    searched := (if include_images then requestedQuery info else none).toList,
    downloaded := (searchedUrl env include_images info).toList,
    tempLeft := tempLeft }

/-- The content-slide loop, carrying the running index `i`. -/
def buildContentSlides (env : ImageEnv) (include_images : Bool) (navy dark : RGB) :
    Nat → List SlideInfo → List ContentOutcome
  | _, [] => []
  | i, info :: rest =>
    buildContentSlide env include_images navy dark i info ::
      buildContentSlides env include_images navy dark (i + 1) rest

/-- Slide N+3: the conclusion, sized by the summed character count of the
raw `content` list (no cleanup). -/
def buildConclusionSlide (navy dark : RGB) (conclusion : Option ConclusionData) : Slide :=
  let cd := conclusion.getD ⟨none, none⟩
  let conc_points := cd.content.getD []
  let total := (conc_points.map String.length).sum
  let fs := concFontSize total
  let sp := concSpacing total
  { shapes := [
      Shape.textbox 500 300 9000 800
        [{ newPara with
           text := cd.title.getD "Conclusion", bold := true, size := some 28,
           color := some navy }],
      Shape.rectangle 500 1100 9000 30 navy,
      Shape.textbox 1000 1500 8000 3500 (newPara :: conc_points.map (concBulletPara dark fs sp))],
    background := none }

/-- Slide N+4: the closing slide, with a full background fill and a fixed
54pt white "Thank You". -/
def buildThankYouSlide (navy : RGB) : Slide :=
  { shapes := [Shape.textbox 2000 2000 6000 2000 [newPara,
      { newPara with
        text := "Thank You", bold := true, size := some 54,
        color := some (255, 255, 255), align := some Align.center }]],
    background := some navy }

/-- Result of a successful `create_ppt_file` call: the saved deck plus the
observable side effects of the render pass. -/
structure RenderResult where
  deck : Deck
  searchCalls : List String
  downloadCalls : List String
  tempLeft : List String
deriving DecidableEq, Repr

/-- The source's `create_ppt_file(slide_data, include_images, theme_color)`:
`none` exactly when `json.loads` raised, otherwise the five-part deck.  The
saved file's uuid-suffixed name is not modelled; `some` stands for a saved
file. -/
def create_ppt_file (slide_data : Option SlideData) (include_images : Bool)
    (theme_color : String) (env : ImageEnv) : Option RenderResult :=
  match slide_data with
  | none => none
  | some data =>
    let navy := themeRGB theme_color
    let slides_content := data.slides.getD []
    let outcomes := buildContentSlides env include_images navy DARK_GRAY 0 slides_content
    let allSlides :=
      buildTitleSlide navy DARK_GRAY (data.presentation_title.getD "Presentation")
        :: buildTocSlide navy DARK_GRAY (data.table_of_contents.getD [])
        :: (outcomes.map ContentOutcome.slide
            ++ [buildConclusionSlide navy DARK_GRAY data.conclusion, buildThankYouSlide navy])
    some {
      deck := { slideWidth := 10000, slideHeight := 5625, slides := allSlides },
      searchCalls := (outcomes.map ContentOutcome.searched).flatten,
      downloadCalls := (outcomes.map ContentOutcome.downloaded).flatten,
      tempLeft := (outcomes.map ContentOutcome.tempLeft).flatten }

/-! ### Observables used by the theorems -/

/-- Text of the first paragraph of a slide's first shape, when that shape
is a non-empty text box (the title text of content and conclusion
slides). -/
def slideTitleText (s : Slide) : Option String :=
  match s.shapes with
  | Shape.textbox _ _ _ _ (p :: _) :: _ => some p.text
  | _ => none

/-- The table-of-contents column boxes (the text boxes at `y = 2`), each as
its list of non-empty paragraphs. -/
def tocColumnParas (s : Slide) : List (List Para) :=
  s.shapes.filterMap (fun sh =>
    match sh with
    | Shape.textbox _ y _ _ paras =>
      if y = 2000 then some (paras.filter (fun p => p.text ≠ "")) else none
    | _ => none)

/-- Non-empty paragraphs of a content slide's body text box (the box at
`(0.5, 1.4)`). -/
def bodyParas (s : Slide) : List Para :=
  (s.shapes.filterMap (fun sh =>
    match sh with
    | Shape.textbox x y _ _ paras =>
      if x = 500 ∧ y = 1400 then some (paras.filter (fun p => p.text ≠ "")) else none
    | _ => none)).flatten

/-- Width of a content slide's body text box. -/
def bodyWidth (s : Slide) : Option Nat :=
  (s.shapes.filterMap (fun sh =>
    match sh with
    | Shape.textbox x y w _ _ => if x = 500 ∧ y = 1400 then some w else none
    | _ => none)).head?

/-- The picture shapes of a slide. -/
def pictureShapes (s : Slide) : List Shape :=
  s.shapes.filter (fun sh =>
    match sh with
    | Shape.picture _ _ _ _ _ => true
    | _ => false)

/-- Texts of the non-empty paragraphs of the conclusion body box (the box
at `(1, 1.5)`). -/
def concBodyTexts (s : Slide) : List String :=
  ((s.shapes.filterMap (fun sh =>
    match sh with
    | Shape.textbox x y _ _ paras =>
      if x = 1000 ∧ y = 1500 then some (paras.filter (fun p => p.text ≠ "")) else none
    | _ => none)).flatten).map Para.text

/-! ### Concrete fixtures for closed statements -/

/-- An environment in which every search misses and every download fails. -/
def envNoImg : ImageEnv := ⟨fun _ => none, fun _ _ => none, fun _ => true⟩

/-- An environment in which the search hits, the download succeeds on the
first attempt, and `add_picture` raises on every slide. -/
def envPlaceFail : ImageEnv :=
  ⟨fun _ => some "http://img.example/x.jpg", fun _ _ => some (200, "IMAGEBYTES"), fun _ => false⟩

/-- An environment in which the search hits, the download succeeds on the
first attempt, and `add_picture` succeeds. -/
def envImgOk : ImageEnv :=
  ⟨fun _ => some "http://img.example/x.jpg", fun _ _ => some (200, "IMAGEBYTES"), fun _ => true⟩

/-- A bullet of exactly 400 characters. -/
def bullet400 : String := String.mk (List.replicate 400 'a')

/-- A content entry whose single bullet sums to exactly 400 characters. -/
def info400 : SlideInfo := ⟨some "T", some [bullet400], none⟩

/-- A bullet of exactly 500 characters. -/
def bullet500 : String := String.mk (List.replicate 500 'b')

/-- A content entry whose single bullet sums to exactly 500 characters. -/
def info500 : SlideInfo := ⟨some "T", some [bullet500], none⟩

/-- A bullet of exactly 601 characters. -/
def bullet601 : String := String.mk (List.replicate 601 'c')

/-- A content entry whose single bullet sums to exactly 601 characters. -/
def info601 : SlideInfo := ⟨some "T", some [bullet601], none⟩

/-- A content entry that requests an image. -/
def infoCats : SlideInfo := ⟨some "A", some ["point one"], some "cats"⟩

/-- A parsed input with a single content slide that requests an image. -/
def dImg : SlideData :=
  ⟨some "T", some ["A"], some [infoCats], some ⟨some "Conclusion", some ["end"]⟩⟩

/-! ### Helper lemmas -/

/-- A rendered bullet is never the empty string: the glyph prefix gives it
positive length. -/
theorem bulletText_ne_empty (s : String) : ("• " ++ s) ≠ "" := by
  intro h
  have h2 := congrArg String.length h
  rw [String.length_append] at h2
  have hb : ("• " : String).length = 2 := rfl
  have he : ("" : String).length = 0 := rfl
  omega

/-- Dropping the empty paragraphs of a rendered bullet box keeps exactly
the bullets: the implicit first paragraph goes, every bullet stays. -/
theorem filter_text_ne_map (g : String → Para) (hg : ∀ s, (g s).text ≠ "") (l : List String) :
    (newPara :: l.map g).filter (fun p => p.text ≠ "") = l.map g := by
  rw [List.filter_cons_of_neg, List.filter_eq_self.mpr]
  · intro p hp
    obtain ⟨s, _, rfl⟩ := List.mem_map.mp hp
    exact decide_eq_true (hg s)
  · simp [newPara]

/-- The download loop makes at most `n` attempts. -/
theorem fetchGo_attempts_le (rs : Nat → Option (Nat × String)) :
    ∀ (n a : Nat), (fetchGo rs a n).attempts ≤ n
  | 0, _ => Nat.le_refl 0
  | Nat.succ n, a => by
    unfold fetchGo
    cases rs a with
    | none => exact Nat.succ_le_succ (fetchGo_attempts_le rs n (a + 1))
    | some p =>
      obtain ⟨st, body⟩ := p
      dsimp only
      split
      · exact Nat.succ_le_succ (Nat.zero_le n)
      · exact Nat.succ_le_succ (fetchGo_attempts_le rs n (a + 1))

/-- When the loop returns no bytes it used all its attempts and slept
`a + 1, a + 2, ...` seconds after each of them. -/
theorem fetchGo_result_none (rs : Nat → Option (Nat × String)) :
    ∀ (n a : Nat), (fetchGo rs a n).result = none →
      (fetchGo rs a n).attempts = n ∧ (fetchGo rs a n).sleeps = List.range' (a + 1) n
  | 0, _, _ => ⟨rfl, rfl⟩
  | Nat.succ n, a, h => by
    revert h
    unfold fetchGo
    cases rs a with
    | none =>
      intro h
      obtain ⟨h1, h2⟩ := fetchGo_result_none rs n (a + 1) h
      refine ⟨by simpa using h1, ?_⟩
      rw [List.range'_succ]
      simpa using h2
    | some p =>
      obtain ⟨st, body⟩ := p
      dsimp only
      split
      · intro h; exact absurd h (by simp)
      · intro h
        obtain ⟨h1, h2⟩ := fetchGo_result_none rs n (a + 1) h
        refine ⟨by simpa using h1, ?_⟩
        rw [List.range'_succ]
        simpa using h2

/-- When no attempt in the window gets a status-200 reply, the loop comes
back empty-handed. -/
theorem fetchGo_all_fail (rs : Nat → Option (Nat × String)) :
    ∀ (n a : Nat), (∀ k body, a ≤ k → k < a + n → rs k ≠ some (200, body)) →
      (fetchGo rs a n).result = none
  | 0, _, _ => rfl
  | Nat.succ n, a, h => by
    have hshift : ∀ k body, a + 1 ≤ k → k < (a + 1) + n → rs k ≠ some (200, body) :=
      fun k body hk1 hk2 => h k body (by omega) (by omega)
    unfold fetchGo
    cases hr : rs a with
    | none => exact fetchGo_all_fail rs n (a + 1) hshift
    | some p =>
      obtain ⟨st, body⟩ := p
      have hst : st ≠ 200 := by
        intro he
        exact h a body (Nat.le_refl a) (by omega) (by rw [hr, he])
      dsimp only
      rw [if_neg hst]
      exact fetchGo_all_fail rs n (a + 1) hshift

/-- Variant of the bullet-box cleanup lemma in the normal form `norm_num`
produces for the filter predicate. -/
theorem filter_not_empty_of_all (l : List Para) (hl : ∀ p ∈ l, p.text ≠ "") :
    (newPara :: l).filter (fun p => !decide (p.text = "")) = l := by
  rw [List.filter_cons_of_neg (by simp [newPara])]
  exact List.filter_eq_self.mpr (fun p hp => by simpa using hl p hp)

/-- The table-of-contents column boxes hold exactly the rendered items:
two columns split at `ceil(n / 2)` when `n > 4`, one column otherwise. -/
theorem tocColumnParas_eq (navy dark : RGB) (items : List String) :
    tocColumnParas (buildTocSlide navy dark items)
      = if 4 < items.length then
          [(items.take ((items.length + 1) / 2)).map (tocPara dark items.length false),
           (items.drop ((items.length + 1) / 2)).map (tocPara dark items.length false)]
        else [items.map (tocPara dark items.length true)] := by
  by_cases h : 4 < items.length
  · rw [if_pos h]
    unfold buildTocSlide
    rw [if_pos h]
    unfold tocColumnParas
    simp only [List.filterMap_cons, List.filterMap_nil]
    norm_num
    constructor <;> (apply filter_not_empty_of_all; intro p hp)
    · obtain ⟨s, _, rfl⟩ := List.mem_map.mp (List.take_subset _ _ hp)
      exact bulletText_ne_empty s
    · obtain ⟨s, _, rfl⟩ := List.mem_map.mp (List.drop_subset _ _ hp)
      exact bulletText_ne_empty s
  · rw [if_neg h]
    unfold buildTocSlide
    rw [if_neg h]
    unfold tocColumnParas
    simp only [List.filterMap_cons, List.filterMap_nil]
    norm_num
    apply filter_not_empty_of_all
    intro p hp
    obtain ⟨s, _, rfl⟩ := List.mem_map.mp hp
    exact bulletText_ne_empty s

/-! ### Claim theorems -/

/-- C2: a table of contents with at most 4 items is laid out as a single
centred column holding all items in input order; with more than 4 items it
is laid out as exactly two columns, the first holding the first
`ceil(n / 2)` items and the second the remaining `floor(n / 2)`, in input
order. -/
theorem c2_toc_columns (navy dark : RGB) (items : List String) :
    (items.length ≤ 4 →
      (tocColumnParas (buildTocSlide navy dark items)).map (List.map Para.text)
        = [items.map (fun it => "• " ++ it)]) ∧
    (4 < items.length →
      (tocColumnParas (buildTocSlide navy dark items)).map (List.map Para.text)
        = [(items.take ((items.length + 1) / 2)).map (fun it => "• " ++ it),
           (items.drop ((items.length + 1) / 2)).map (fun it => "• " ++ it)] ∧
      (items.take ((items.length + 1) / 2)).length = (items.length + 1) / 2 ∧
      (items.drop ((items.length + 1) / 2)).length = items.length / 2) := by
  have etrue : (Para.text ∘ tocPara dark items.length true) = fun it => "• " ++ it :=
    funext (fun _ => rfl)
  have efalse : (Para.text ∘ tocPara dark items.length false) = fun it => "• " ++ it :=
    funext (fun _ => rfl)
  constructor
  · intro h
    rw [tocColumnParas_eq, if_neg (by omega)]
    simp only [List.map_cons, List.map_nil, List.map_map]
    rw [etrue]
  · intro h
    refine ⟨?_, ?_, ?_⟩
    · rw [tocColumnParas_eq, if_pos h]
      simp only [List.map_cons, List.map_nil, List.map_map]
      rw [efalse]
    · rw [List.length_take]
      omega
    · rw [List.length_drop]
      omega

/-- C8 counterexample: with exactly 5 table-of-contents items the engine
renders 20pt items with 14pt spacing, not the 16pt items the claim's
"5 to 8 items" band asserts. -/
theorem c8_counterexample :
    ((tocColumnParas (buildTocSlide (0, 51, 102) (80, 80, 80)
        ["a", "b", "c", "d", "e"])).flatten).map Para.size
      = [some 20, some 20, some 20, some 20, some 20] ∧
    ((tocColumnParas (buildTocSlide (0, 51, 102) (80, 80, 80)
        ["a", "b", "c", "d", "e"])).flatten).map Para.spaceAfter
      = [some 14, some 14, some 14, some 14, some 14] ∧
    ¬ ((tocColumnParas (buildTocSlide (0, 51, 102) (80, 80, 80)
        ["a", "b", "c", "d", "e"])).flatten).map Para.size
      = [some 16, some 16, some 16, some 16, some 16] := by
  refine ⟨by decide, by decide, by decide⟩

/-- C8 (amended): every table-of-contents item is rendered at the font and
spacing selected by item count, with the bands more than 8 items giving
14pt/8pt, 6 to 8 items giving 16pt/12pt, and at most 5 items giving
20pt/14pt. -/
theorem c8_amended_toc_sizing (navy dark : RGB) (items : List String) :
    (∀ p ∈ (tocColumnParas (buildTocSlide navy dark items)).flatten,
        p.size = some (tocFontSize items.length) ∧
        p.spaceAfter = some (tocSpacing items.length)) ∧
    (8 < items.length → tocFontSize items.length = 14 ∧ tocSpacing items.length = 8) ∧
    (5 < items.length ∧ items.length ≤ 8 →
        tocFontSize items.length = 16 ∧ tocSpacing items.length = 12) ∧
    (items.length ≤ 5 → tocFontSize items.length = 20 ∧ tocSpacing items.length = 14) := by
  refine ⟨?_, ?_, ?_, ?_⟩
  · intro p hp
    rw [tocColumnParas_eq] at hp
    by_cases h : 4 < items.length
    · rw [if_pos h] at hp
      simp only [List.flatten_cons, List.flatten_nil, List.append_nil, List.mem_append] at hp
      rcases hp with hp | hp <;>
        · obtain ⟨s, _, rfl⟩ := List.mem_map.mp hp
          exact ⟨rfl, rfl⟩
    · rw [if_neg h] at hp
      simp only [List.flatten_cons, List.flatten_nil, List.append_nil] at hp
      obtain ⟨s, _, rfl⟩ := List.mem_map.mp hp
      exact ⟨rfl, rfl⟩
  · intro h
    unfold tocFontSize tocSpacing
    constructor <;> (split_ifs <;> omega)
  · intro h
    unfold tocFontSize tocSpacing
    constructor <;> (split_ifs <;> omega)
  · intro h
    unfold tocFontSize tocSpacing
    constructor <;> (split_ifs <;> omega)

/-- The body text box of a content slide holds exactly the cleaned
bullets, rendered at the font and spacing selected by their summed
character count. -/
theorem bodyParas_buildContentSlide (env : ImageEnv) (ii : Bool) (navy dark : RGB)
    (i : Nat) (info : SlideInfo) :
    bodyParas (buildContentSlide env ii navy dark i info).slide
      = (cleanBullets (info.content.getD [])).map
          (contentBulletPara dark (contentFontSize (contentTotalChars info))
            (contentSpacing (contentTotalChars info))) := by
  unfold buildContentSlide bodyParas contentTotalChars
  dsimp only
  split <;>
  · norm_num
    split <;>
    · simp only [List.filterMap_cons, List.filterMap_nil]
      norm_num
      apply filter_not_empty_of_all
      intro p hp
      obtain ⟨s, _, rfl⟩ := List.mem_map.mp hp
      exact bulletText_ne_empty s

set_option maxRecDepth 8000 in
/-- C3 counterexample: a content slide whose bullets sum to exactly 400
characters is rendered at 16pt with 8pt spacing, not at the 14pt/6pt the
claim's "400–600" band asserts (the source tests `total_chars > 400`). -/
theorem c3_counterexample :
    (bodyParas (buildContentSlide envNoImg true (0, 51, 102) (80, 80, 80) 0 info400).slide).map
        Para.size = [some 16] ∧
    (bodyParas (buildContentSlide envNoImg true (0, 51, 102) (80, 80, 80) 0 info400).slide).map
        Para.spaceAfter = [some 8] ∧
    ¬ (bodyParas (buildContentSlide envNoImg true (0, 51, 102) (80, 80, 80) 0 info400).slide).map
        Para.size = [some 14] := by
  refine ⟨by decide, by decide, by decide⟩

/-- C3 (amended): every body paragraph of a content slide is rendered at
the font size and spacing that are a pure function of the summed character
count of its cleaned bullets, with the bands more than 600 characters
giving 12pt/4pt, more than 400 and at most 600 giving 14pt/6pt, and at
most 400 giving 16pt/8pt; the font size is monotonically non-increasing in
the summed length. -/
theorem c3_amended_font_bands (env : ImageEnv) (ii : Bool) (navy dark : RGB)
    (i : Nat) (info : SlideInfo) :
    (∀ p ∈ bodyParas (buildContentSlide env ii navy dark i info).slide,
        p.size = some (contentFontSize (contentTotalChars info)) ∧
        p.spaceBefore = some (contentSpacing (contentTotalChars info)) ∧
        p.spaceAfter = some (contentSpacing (contentTotalChars info))) ∧
    (600 < contentTotalChars info →
        contentFontSize (contentTotalChars info) = 12 ∧
        contentSpacing (contentTotalChars info) = 4) ∧
    (400 < contentTotalChars info ∧ contentTotalChars info ≤ 600 →
        contentFontSize (contentTotalChars info) = 14 ∧
        contentSpacing (contentTotalChars info) = 6) ∧
    (contentTotalChars info ≤ 400 →
        contentFontSize (contentTotalChars info) = 16 ∧
        contentSpacing (contentTotalChars info) = 8) ∧
    (∀ t u : Nat, t ≤ u → contentFontSize u ≤ contentFontSize t) := by
  refine ⟨?_, ?_, ?_, ?_, ?_⟩
  · intro p hp
    rw [bodyParas_buildContentSlide] at hp
    obtain ⟨s, _, rfl⟩ := List.mem_map.mp hp
    exact ⟨rfl, rfl, rfl⟩
  · intro h
    unfold contentFontSize contentSpacing
    constructor <;> (split_ifs <;> omega)
  · intro h
    unfold contentFontSize contentSpacing
    constructor <;> (split_ifs <;> omega)
  · intro h
    unfold contentFontSize contentSpacing
    constructor <;> (split_ifs <;> omega)
  · intro t u htu
    unfold contentFontSize
    split_ifs <;> omega

/-- C4: the content-slide layout reacts to actual availability of image
bytes: with no bytes (no truthy query, search miss, or download failure)
the body box spans the full 9-unit width and no picture shape exists; with
bytes available the body box is 5 units wide and (when the external
`add_picture` call succeeds) a picture shape sits in the freed right-hand
region at the fixed offset. -/
theorem c4_image_layout (env : ImageEnv) (ii : Bool) (navy dark : RGB)
    (i : Nat) (info : SlideInfo) :
    (imageBytes env ii info = none →
      bodyWidth (buildContentSlide env ii navy dark i info).slide = some 9000 ∧
      pictureShapes (buildContentSlide env ii navy dark i info).slide = []) ∧
    ((imageBytes env ii info).isSome = true →
      bodyWidth (buildContentSlide env ii navy dark i info).slide = some 5000 ∧
      (env.placeOk i = true →
        pictureShapes (buildContentSlide env ii navy dark i info).slide
          = [Shape.picture 6000 2000 3500 navy 2])) := by
  constructor
  · intro h
    constructor <;> simp [buildContentSlide, bodyWidth, pictureShapes, h]
  · intro h
    constructor
    · simp [buildContentSlide, bodyWidth, h]
    · intro hp
      simp [buildContentSlide, pictureShapes, h, hp]

/-- The conclusion body box holds one glyph-prefixed paragraph per raw
content entry, with no cleanup. -/
theorem concBodyTexts_buildConclusionSlide (navy dark : RGB) (cd : ConclusionData) :
    concBodyTexts (buildConclusionSlide navy dark (some cd))
      = (cd.content.getD []).map (fun p => "• " ++ p) := by
  unfold buildConclusionSlide concBodyTexts
  dsimp only
  simp only [List.filterMap_cons, List.filterMap_nil]
  norm_num
  have hl : ∀ p ∈ (cd.content.getD []).map
      (concBulletPara dark (concFontSize (((cd.content.getD []).map String.length).sum))
        (concSpacing (((cd.content.getD []).map String.length).sum))), p.text ≠ "" := by
    intro p hp
    obtain ⟨s, _, rfl⟩ := List.mem_map.mp hp
    exact bulletText_ne_empty s
  rw [filter_not_empty_of_all _ hl, List.map_map]
  congr 1

/-- C5 counterexample: the conclusion body does not discard a
whitespace-only bullet and does not substitute the placeholder — the blank
point is rendered as a glyph-prefixed whitespace paragraph. -/
theorem c5_counterexample :
    concBodyTexts (buildConclusionSlide (0, 51, 102) (80, 80, 80)
        (some ⟨some "Conclusion", some ["   "]⟩)) = ["• " ++ "   "] ∧
    pyStrip "   " = "" ∧
    ¬ concBodyTexts (buildConclusionSlide (0, 51, 102) (80, 80, 80)
        (some ⟨some "Conclusion", some ["   "]⟩)) = ["• " ++ "(No content generated)"] := by
  refine ⟨by decide, by decide, by decide⟩

/-- C5 (amended): content-slide bodies prefix every bullet with the glyph,
discard blank or whitespace-only bullets before the sizing sum, and
replace an all-blank list by the single placeholder bullet; the conclusion
body prefixes the glyph on every point but renders the raw points without
discarding blanks and without the placeholder. -/
theorem c5_amended_bullets (env : ImageEnv) (ii : Bool) (navy dark : RGB) (i : Nat)
    (info : SlideInfo) (ct : Option String) (points : List String) :
    ((bodyParas (buildContentSlide env ii navy dark i info).slide).map Para.text
        = (cleanBullets (info.content.getD [])).map (fun b => "• " ++ b)) ∧
    (∀ b ∈ cleanBullets (info.content.getD []), b ≠ "") ∧
    ((∀ b ∈ info.content.getD [], pyStrip b = "") →
        cleanBullets (info.content.getD []) = ["(No content generated)"]) ∧
    (concBodyTexts (buildConclusionSlide navy dark (some ⟨ct, some points⟩))
        = points.map (fun p => "• " ++ p)) := by
  refine ⟨?_, ?_, ?_, concBodyTexts_buildConclusionSlide navy dark ⟨ct, some points⟩⟩
  · rw [bodyParas_buildContentSlide, List.map_map]
    congr 1
  · intro b hb
    unfold cleanBullets at hb
    dsimp only at hb
    split at hb
    · simp only [List.mem_singleton] at hb
      subst hb
      decide
    · exact of_decide_eq_true (List.mem_filter.mp hb).2
  · intro h
    unfold cleanBullets
    dsimp only
    rw [if_pos]
    apply List.filter_eq_nil_iff.mpr
    intro a ha
    obtain ⟨x, hx, rfl⟩ := List.mem_map.mp ha
    simp [h x hx]

/-- The content-slide loop yields one outcome per entry. -/
theorem buildContentSlides_length (env : ImageEnv) (ii : Bool) (navy dark : RGB) :
    ∀ (l : List SlideInfo) (i : Nat),
      (buildContentSlides env ii navy dark i l).length = l.length
  | [], _ => rfl
  | _ :: rest, i => by
    simp [buildContentSlides, buildContentSlides_length env ii navy dark rest (i + 1)]

/-- The `j`-th outcome of the content-slide loop started at index `i` is
the slide built for the `j`-th entry at running index `i + j`. -/
theorem buildContentSlides_getElem (env : ImageEnv) (ii : Bool) (navy dark : RGB) :
    ∀ (l : List SlideInfo) (i j : Nat),
      (buildContentSlides env ii navy dark i l)[j]?
        = l[j]?.map (fun info => buildContentSlide env ii navy dark (i + j) info)
  | [], _, _ => by simp [buildContentSlides]
  | info :: rest, i, 0 => by simp [buildContentSlides]
  | info :: rest, i, j + 1 => by
    have hrec := buildContentSlides_getElem env ii navy dark rest (i + 1) j
    have hadd : i + 1 + j = i + (j + 1) := by omega
    simp only [buildContentSlides, List.getElem?_cons_succ, hrec, hadd]

/-- Every outcome of the content-slide loop is a `buildContentSlide`. -/
theorem mem_buildContentSlides (env : ImageEnv) (ii : Bool) (navy dark : RGB) :
    ∀ (l : List SlideInfo) (i : Nat) (out : ContentOutcome),
      out ∈ buildContentSlides env ii navy dark i l →
      ∃ j info, info ∈ l ∧ out = buildContentSlide env ii navy dark j info
  | [], _, _, h => absurd h (List.not_mem_nil _)
  | info :: rest, i, out, h => by
    rcases List.mem_cons.mp h with h | h
    · exact ⟨i, info, List.mem_cons_self info rest, h⟩
    · obtain ⟨j, info', hmem, heq⟩ := mem_buildContentSlides env ii navy dark rest (i + 1) out h
      exact ⟨j, info', List.mem_cons_of_mem _ hmem, heq⟩

/-- The title text of a content slide is the entry's title (with the
`'Slide'` default). -/
theorem slideTitleText_content (env : ImageEnv) (ii : Bool) (navy dark : RGB)
    (i : Nat) (info : SlideInfo) :
    slideTitleText (buildContentSlide env ii navy dark i info).slide
      = some (info.title.getD "Slide") := rfl

/-- The title text of the conclusion slide (with the `'Conclusion'`
default). -/
theorem slideTitleText_conclusion (navy dark : RGB) (c : Option ConclusionData) :
    slideTitleText (buildConclusionSlide navy dark c)
      = some ((c.getD ⟨none, none⟩).title.getD "Conclusion") := rfl

/-- A successful render's slide list, written out. -/
theorem create_slides_eq (d : SlideData) (ii : Bool) (tc : String) (env : ImageEnv) :
    ∃ res, create_ppt_file (some d) ii tc env = some res ∧
      res.deck.slides
        = buildTitleSlide (themeRGB tc) DARK_GRAY (d.presentation_title.getD "Presentation")
          :: buildTocSlide (themeRGB tc) DARK_GRAY (d.table_of_contents.getD [])
          :: (((buildContentSlides env ii (themeRGB tc) DARK_GRAY 0 (d.slides.getD [])).map
                ContentOutcome.slide)
              ++ [buildConclusionSlide (themeRGB tc) DARK_GRAY d.conclusion,
                  buildThankYouSlide (themeRGB tc)]) ∧
      res.searchCalls = ((buildContentSlides env ii (themeRGB tc) DARK_GRAY 0
          (d.slides.getD [])).map ContentOutcome.searched).flatten ∧
      res.downloadCalls = ((buildContentSlides env ii (themeRGB tc) DARK_GRAY 0
          (d.slides.getD [])).map ContentOutcome.downloaded).flatten :=
  ⟨_, rfl, rfl, rfl, rfl⟩

/-- C6: an input string that fails structural parsing (a `JSONDecodeError`
from `json.loads`) makes `create_ppt_file` return the explicit failure
signal `None`: no slides are constructed and no deck file is produced. -/
theorem c6_parse_failure :
    ∀ (include_images : Bool) (theme_color : String) (env : ImageEnv),
      create_ppt_file none include_images theme_color env = none :=
  fun _ _ _ => rfl

/-- C7: `fetch_image` makes at most 3 attempts; exhausting them yields
`none` (not an error) after sleeping 1 s, 2 s and 3 s; any reply whose
status is not 200, and any transport failure, counts as a failed attempt;
and an image failure never aborts the render pipeline (the deck is still
produced whatever the image environment does). -/
theorem c7_fetch_retries (responses : Nat → Option (Nat × String)) :
    (fetch_image responses 3).attempts ≤ 3 ∧
    ((fetch_image responses 3).result = none →
      (fetch_image responses 3).attempts = 3 ∧
      (fetch_image responses 3).sleeps = [1, 2, 3]) ∧
    ((∀ k body, k < 3 → responses k ≠ some (200, body)) →
      (fetch_image responses 3).result = none) ∧
    (∀ (d : SlideData) (include_images : Bool) (theme_color : String) (env : ImageEnv),
      (create_ppt_file (some d) include_images theme_color env).isSome = true) := by
  refine ⟨fetchGo_attempts_le responses 3 0, ?_, ?_, fun d ii tc env => rfl⟩
  · intro h
    obtain ⟨h1, h2⟩ := fetchGo_result_none responses 3 0 h
    exact ⟨h1, h2⟩
  · intro h
    exact fetchGo_all_fail responses 3 0 (fun k body hk1 hk2 => h k body (by omega))

/-- C1: a deck rendered from a parsed tree always has `N + 4` slides —
Title, Table of Contents, one slide per `slides` entry in input order,
Conclusion, Closing — independently of the length of
`table_of_contents`, including when the two lengths mismatch. -/
theorem c1_slide_order_and_count (d : SlideData) (ii : Bool) (tc : String) (env : ImageEnv) :
    ∃ res, create_ppt_file (some d) ii tc env = some res ∧
      res.deck.slides.length = (d.slides.getD []).length + 4 ∧
      res.deck.slides.head?
        = some (buildTitleSlide (themeRGB tc) DARK_GRAY (d.presentation_title.getD "Presentation")) ∧
      res.deck.slides[1]?
        = some (buildTocSlide (themeRGB tc) DARK_GRAY (d.table_of_contents.getD [])) ∧
      (∀ j : Nat, j < (d.slides.getD []).length →
        (res.deck.slides[2 + j]?).bind slideTitleText
          = ((d.slides.getD [])[j]?).map (fun si => si.title.getD "Slide")) ∧
      (res.deck.slides[2 + (d.slides.getD []).length]?).bind slideTitleText
        = some ((d.conclusion.getD ⟨none, none⟩).title.getD "Conclusion") ∧
      res.deck.slides[3 + (d.slides.getD []).length]?
        = some (buildThankYouSlide (themeRGB tc)) := by
  obtain ⟨res, hres, hslides, _, _⟩ := create_slides_eq d ii tc env
  have hM : ((buildContentSlides env ii (themeRGB tc) DARK_GRAY 0 (d.slides.getD [])).map
      ContentOutcome.slide).length = (d.slides.getD []).length := by
    rw [List.length_map, buildContentSlides_length]
  refine ⟨res, hres, ?_, ?_, ?_, ?_, ?_, ?_⟩
  · rw [hslides]
    simp only [List.length_cons, List.length_append, List.length_nil, hM]
  · rw [hslides]
    rfl
  · rw [hslides]
    simp
  · intro j hj
    rw [hslides]
    have h2 : 2 + j = j + 1 + 1 := by omega
    rw [h2, List.getElem?_cons_succ, List.getElem?_cons_succ,
      List.getElem?_append_left (by rw [hM]; exact hj), List.getElem?_map,
      buildContentSlides_getElem, List.getElem?_eq_getElem hj]
    simp [slideTitleText_content]
  · rw [hslides]
    have h2 : 2 + (d.slides.getD []).length = (d.slides.getD []).length + 1 + 1 := by omega
    rw [h2, List.getElem?_cons_succ, List.getElem?_cons_succ,
      List.getElem?_append_right (by rw [hM]), hM, Nat.sub_self]
    simp [slideTitleText_conclusion]
  · rw [hslides]
    have h2 : 3 + (d.slides.getD []).length = (d.slides.getD []).length + 1 + 1 + 1 := by omega
    have h3 : (d.slides.getD []).length + 1 - (d.slides.getD []).length = 1 := by omega
    rw [h2, List.getElem?_cons_succ, List.getElem?_cons_succ,
      List.getElem?_append_right (by rw [hM]; omega), hM, h3]
    rfl

/-- The table of contents never carries a picture shape. -/
theorem pictureShapes_buildTocSlide (navy dark : RGB) (items : List String) :
    pictureShapes (buildTocSlide navy dark items) = [] := by
  unfold buildTocSlide pictureShapes
  dsimp only
  split <;> rfl

/-- With `include_images = False` the slide loop issues no Pexels query. -/
theorem searched_false (env : ImageEnv) (navy dark : RGB) (i : Nat) (info : SlideInfo) :
    (buildContentSlide env false navy dark i info).searched = [] := rfl

/-- With `include_images = False` the slide loop downloads nothing. -/
theorem downloaded_false (env : ImageEnv) (navy dark : RGB) (i : Nat) (info : SlideInfo) :
    (buildContentSlide env false navy dark i info).downloaded = [] := rfl

/-- No query is issued by any iteration of the loop when images are off. -/
theorem buildContentSlides_searched_nil (env : ImageEnv) (navy dark : RGB) :
    ∀ (l : List SlideInfo) (i : Nat),
      ((buildContentSlides env false navy dark i l).map ContentOutcome.searched).flatten = []
  | [], _ => rfl
  | info :: rest, i => by
    simpa [buildContentSlides, searched_false]
      using buildContentSlides_searched_nil env navy dark rest (i + 1)

/-- No url is fetched by any iteration of the loop when images are off. -/
theorem buildContentSlides_downloaded_nil (env : ImageEnv) (navy dark : RGB) :
    ∀ (l : List SlideInfo) (i : Nat),
      ((buildContentSlides env false navy dark i l).map ContentOutcome.downloaded).flatten = []
  | [], _ => rfl
  | info :: rest, i => by
    simpa [buildContentSlides, downloaded_false]
      using buildContentSlides_downloaded_nil env navy dark rest (i + 1)

/-- C9: the temporary staging file survives the slide's construction when
image placement fails — with bytes staged for slide 0 and `add_picture`
raising, `temp_img_0.jpg` is still on disk after the render (and no
picture shape was added), contradicting the unconditional-removal
contract. -/
theorem c9_temp_file_leak :
    ∃ res, create_ppt_file (some dImg) true "#003366" envPlaceFail = some res ∧
      res.tempLeft = ["temp_img_0.jpg"] ∧
      (∀ s ∈ res.deck.slides, pictureShapes s = []) := by
  refine ⟨_, rfl, by decide, by decide⟩

/-- C10: with `include_images = False` no image search and no download is
attempted for any slide, and every content slide uses the full-width
9-unit body with no picture shape, whatever `image_description` queries
the entries carry. -/
theorem c10_no_images_flag (d : SlideData) (tc : String) (env : ImageEnv) :
    ∃ res, create_ppt_file (some d) false tc env = some res ∧
      res.searchCalls = [] ∧ res.downloadCalls = [] ∧
      (∀ s ∈ res.deck.slides, pictureShapes s = []) ∧
      (∀ (navy2 dark2 : RGB) (j : Nat) (info : SlideInfo),
        bodyWidth (buildContentSlide env false navy2 dark2 j info).slide = some 9000 ∧
        pictureShapes (buildContentSlide env false navy2 dark2 j info).slide = [] ∧
        (buildContentSlide env false navy2 dark2 j info).searched = [] ∧
        (buildContentSlide env false navy2 dark2 j info).downloaded = []) := by
  obtain ⟨res, hres, hslides, hsearch, hdl⟩ := create_slides_eq d false tc env
  refine ⟨res, hres, ?_, ?_, ?_, fun navy2 dark2 j info => ⟨rfl, rfl, rfl, rfl⟩⟩
  · rw [hsearch]
    exact buildContentSlides_searched_nil env (themeRGB tc) DARK_GRAY (d.slides.getD []) 0
  · rw [hdl]
    exact buildContentSlides_downloaded_nil env (themeRGB tc) DARK_GRAY (d.slides.getD []) 0
  · intro s hs
    rw [hslides] at hs
    rcases List.mem_cons.mp hs with rfl | hs
    · rfl
    rcases List.mem_cons.mp hs with rfl | hs
    · exact pictureShapes_buildTocSlide (themeRGB tc) DARK_GRAY (d.table_of_contents.getD [])
    rcases List.mem_append.mp hs with hs | hs
    · obtain ⟨out, hout, rfl⟩ := List.mem_map.mp hs
      obtain ⟨j, info, _, rfl⟩ :=
        mem_buildContentSlides env false (themeRGB tc) DARK_GRAY (d.slides.getD []) 0 out hout
      rfl
    · rcases List.mem_cons.mp hs with rfl | hs
      · rfl
      rcases List.mem_cons.mp hs with rfl | hs
      · rfl
      exact absurd hs (List.not_mem_nil s)

/-! ### Witnesses: the claim theorems applied at concrete inputs -/

/-- C2 witness: 3 items give one column, 5 items give two columns split
3 and 2. -/
theorem c2_witness :
    (tocColumnParas (buildTocSlide (0, 51, 102) (80, 80, 80) ["a", "b", "c"])).map
        (List.map Para.text) = [["• a", "• b", "• c"]] ∧
    (tocColumnParas (buildTocSlide (0, 51, 102) (80, 80, 80) ["a", "b", "c", "d", "e"])).map
        (List.map Para.text) = [["• a", "• b", "• c"], ["• d", "• e"]] := by
  constructor
  · exact ((c2_toc_columns (0, 51, 102) (80, 80, 80) ["a", "b", "c"]).1 (by decide)).trans
      (by decide)
  · exact (((c2_toc_columns (0, 51, 102) (80, 80, 80) ["a", "b", "c", "d", "e"]).2
      (by decide)).1).trans (by decide)

set_option maxRecDepth 16000 in
/-- C3 witness: the three bands and monotonicity at concrete summed
lengths 601, 500, 400, and a concrete rendered paragraph. -/
theorem c3_witness :
    contentFontSize (contentTotalChars info601) = 12 ∧
    contentSpacing (contentTotalChars info601) = 4 ∧
    contentFontSize (contentTotalChars info500) = 14 ∧
    contentSpacing (contentTotalChars info500) = 6 ∧
    contentFontSize (contentTotalChars info400) = 16 ∧
    contentSpacing (contentTotalChars info400) = 8 ∧
    contentFontSize 700 ≤ contentFontSize 400 ∧
    (contentBulletPara (80, 80, 80) 16 8 "hi").size
      = some (contentFontSize (contentTotalChars ⟨some "T", some ["hi"], none⟩)) := by
  have h601 := c3_amended_font_bands envNoImg true (0, 51, 102) (80, 80, 80) 0 info601
  have h500 := c3_amended_font_bands envNoImg true (0, 51, 102) (80, 80, 80) 0 info500
  have h400 := c3_amended_font_bands envNoImg true (0, 51, 102) (80, 80, 80) 0 info400
  have hmem := (c3_amended_font_bands envNoImg true (0, 51, 102) (80, 80, 80) 0
      ⟨some "T", some ["hi"], none⟩).1 (contentBulletPara (80, 80, 80) 16 8 "hi") (by decide)
  obtain ⟨ha, hb⟩ := h601.2.1 (by decide)
  obtain ⟨hc, hd⟩ := h500.2.2.1 (by decide)
  obtain ⟨he, hf⟩ := h400.2.2.2.1 (by decide)
  exact ⟨ha, hb, hc, hd, he, hf, h400.2.2.2.2 400 700 (by decide), hmem.1⟩

/-- C4 witness: a requested image that is unavailable leaves the 9-unit
full-width body with no picture; an available image narrows the body to 5
units and places the picture. -/
theorem c4_witness :
    (bodyWidth (buildContentSlide envNoImg true (0, 51, 102) (80, 80, 80) 0 infoCats).slide
        = some 9000 ∧
      pictureShapes (buildContentSlide envNoImg true (0, 51, 102) (80, 80, 80) 0 infoCats).slide
        = []) ∧
    (bodyWidth (buildContentSlide envImgOk true (0, 51, 102) (80, 80, 80) 0 infoCats).slide
        = some 5000 ∧
      pictureShapes (buildContentSlide envImgOk true (0, 51, 102) (80, 80, 80) 0 infoCats).slide
        = [Shape.picture 6000 2000 3500 (0, 51, 102) 2]) := by
  refine ⟨(c4_image_layout envNoImg true (0, 51, 102) (80, 80, 80) 0 infoCats).1 (by decide), ?_⟩
  have h := (c4_image_layout envImgOk true (0, 51, 102) (80, 80, 80) 0 infoCats).2 (by decide)
  exact ⟨h.1, h.2 rfl⟩

/-- C5 witness: a blank bullet is dropped and a non-blank one trimmed on a
content slide, an all-blank list becomes the placeholder, and the
conclusion body renders its raw points glyph-prefixed. -/
theorem c5_witness :
    ((bodyParas (buildContentSlide envNoImg true (0, 51, 102) (80, 80, 80) 0
        ⟨some "T", some ["", "  hi  "], none⟩).slide).map Para.text = ["• hi"]) ∧
    cleanBullets ["", "   "] = ["(No content generated)"] ∧
    concBodyTexts (buildConclusionSlide (0, 51, 102) (80, 80, 80)
        (some ⟨some "C", some ["x"]⟩)) = ["• x"] := by
  refine ⟨?_, ?_, ?_⟩
  · exact ((c5_amended_bullets envNoImg true (0, 51, 102) (80, 80, 80) 0
      ⟨some "T", some ["", "  hi  "], none⟩ (some "C") ["x"]).1).trans (by decide)
  · exact (c5_amended_bullets envNoImg true (0, 51, 102) (80, 80, 80) 0
      ⟨some "T", some ["", "   "], none⟩ (some "C") ["x"]).2.2.1 (by decide)
  · exact (c5_amended_bullets envNoImg true (0, 51, 102) (80, 80, 80) 0
      ⟨some "T", some ["", "   "], none⟩ (some "C") ["x"]).2.2.2

/-- C7 witness: with every attempt failing, exactly 3 attempts are made,
the sleeps are 1 s, 2 s, 3 s, the result is `none` (both for transport
failures and a 404 status), and the pipeline still produces a deck. -/
theorem c7_witness :
    (fetch_image (fun _ => none) 3).attempts ≤ 3 ∧
    (fetch_image (fun _ => none) 3).attempts = 3 ∧
    (fetch_image (fun _ => none) 3).sleeps = [1, 2, 3] ∧
    (fetch_image (fun _ => some (404, "err")) 3).result = none ∧
    (create_ppt_file (some dImg) true "#003366" envImgOk).isSome = true := by
  obtain ⟨h1, h2, h3, h4⟩ := c7_fetch_retries (fun _ => none)
  refine ⟨h1, (h2 rfl).1, (h2 rfl).2, ?_, h4 dImg true "#003366" envImgOk⟩
  refine (c7_fetch_retries (fun _ => some (404, "err"))).2.2.1 ?_
  intro k body hk h
  simp at h

/-- C8 witness: the three bands at concrete item counts 9, 6 and 3. -/
theorem c8_witness :
    tocFontSize 9 = 14 ∧ tocSpacing 9 = 8 ∧
    tocFontSize 6 = 16 ∧ tocSpacing 6 = 12 ∧
    tocFontSize 3 = 20 ∧ tocSpacing 3 = 14 := by
  have h9 := (c8_amended_toc_sizing (0, 51, 102) (80, 80, 80)
      ["a", "b", "c", "d", "e", "f", "g", "h", "i"]).2.1 (by decide)
  have h6 := (c8_amended_toc_sizing (0, 51, 102) (80, 80, 80)
      ["a", "b", "c", "d", "e", "f"]).2.2.1 (by decide)
  have h3 := (c8_amended_toc_sizing (0, 51, 102) (80, 80, 80) ["a", "b", "c"]).2.2.2 (by decide)
  exact ⟨h9.1, h9.2, h6.1, h6.2, h3.1, h3.2⟩

end PPT
